import Mathlib

/-!
# UkweliDB — shallow embedding and verification

A shallow embedding of the core of the UkweliDB repository (an embedded,
append-only, cryptographically chained ledger with a WAL-backed snapshot
store and a workflow transition engine), together with theorems settling
the specification claims about it.

Conventions of the embedding:
* Bytes are `Nat` (values < 256 where they come from real byte strings);
  byte strings are `List Nat`.
* Machine integers are `Nat` with explicit reductions `% 2 ^ w` where the
  source relies on fixed-width arithmetic.
* The external `sha256` crate's `digest` is modelled by a full executable
  SHA-256 implementation (`Sha256.digestBytes` / `Sha256.digestString`),
  so that the length of the hex digest (64 characters) and concrete digest
  comparisons behave exactly as in the running program.
* Randomness (`OsRng`, `rand::random`) and the wall clock are modelled as
  explicit parameters threaded into the operations that consume them.
* The external `ed25519_dalek` crate is modelled at the interface level:
  keys are `Nat` handles and a signature is its 64-byte wire form.
* Fallible operations return `Except` mirroring Rust's `Result`.
-/

namespace Ukweli

/-! ## Model of the `sha256` crate: executable SHA-256

`sha256::digest` hashes bytes (or a string's UTF-8 bytes) and returns the
lowercase hex encoding of the 32-byte digest.  This section implements
SHA-256 (FIPS 180-4) over `List Nat` bytes with `Nat` arithmetic reduced
`% 2 ^ 32`. -/

namespace Sha256

/-- Reduction modulo 2 ^ 32. -/
def m32 (x : Nat) : Nat := x % 4294967296

/-- Right rotation of a 32-bit word by `n` bits. -/
def rotr (n x : Nat) : Nat := m32 ((x >>> n) ||| (x <<< (32 - n)))

/-- The 64 SHA-256 round constants. -/
def K : List Nat :=
  [1116352408, 1899447441, 3049323471, 3921009573, 961987163,
   1508970993, 2453635748, 2870763221, 3624381080, 310598401,
   607225278, 1426881987, 1925078388, 2162078206, 2614888103,
   3248222580, 3835390401, 4022224774, 264347078, 604807628,
   770255983, 1249150122, 1555081692, 1996064986, 2554220882,
   2821834349, 2952996808, 3210313671, 3336571891, 3584528711,
   113926993, 338241895, 666307205, 773529912, 1294757372,
   1396182291, 1695183700, 1986661051, 2177026350, 2456956037,
   2730485921, 2820302411, 3259730800, 3345764771, 3516065817,
   3600352804, 4094571909, 275423344, 430227734, 506948616,
   659060556, 883997877, 958139571, 1322822218, 1537002063,
   1747873779, 1955562222, 2024104815, 2227730452, 2361852424,
   2428436474, 2756734187, 3204031479, 3329325298]

/-- Initial hash state. -/
def H0 : List Nat :=
  [1779033703, 3144134277, 1013904242, 2773480762,
   1359893119, 2600822924, 528734635, 1541459225]

/-- Big-endian split of a `Nat` into `n` bytes (most significant first). -/
def beBytes (n v : Nat) : List Nat :=
  match n with
  | 0 => []
  | k + 1 => beBytes k (v / 256) ++ [v % 256]

/-- FIPS 180-4 padding: append `0x80`, zero bytes, and the 8-byte big-endian
bit length so the total length is a multiple of 64. -/
def pad (msg : List Nat) : List Nat :=
  let len := msg.length
  let zeros := (119 - (len % 64)) % 64
  msg ++ (128 :: List.replicate zeros 0) ++ beBytes 8 (len * 8)

/-- Group bytes into big-endian 32-bit words (input length a multiple of 4). -/
def toWords : List Nat → List Nat
  | a :: b :: c :: d :: rest => (((a * 256 + b) * 256 + c) * 256 + d) :: toWords rest
  | _ => []

/-- Split a word list into 16-word blocks (fuel-based so the kernel can
reduce it; `fuel = ws.length` always suffices since each step consumes 16
words). -/
def toBlocksAux : Nat → List Nat → List (List Nat)
  | 0, _ => []
  | _, [] => []
  | f + 1, ws => ws.take 16 :: toBlocksAux f (ws.drop 16)

/-- Split a word list into 16-word blocks. -/
def toBlocks (ws : List Nat) : List (List Nat) := toBlocksAux ws.length ws

/-- Message-schedule extension: given the most recent words (newest first),
produce the next scheduled word. -/
def nextW (recent : List Nat) : Nat :=
  let w2 := recent.getD 1 0
  let w7 := recent.getD 6 0
  let w15 := recent.getD 14 0
  let w16 := recent.getD 15 0
  let s0 := (rotr 7 w15) ^^^ (rotr 18 w15) ^^^ (w15 >>> 3)
  let s1 := (rotr 17 w2) ^^^ (rotr 19 w2) ^^^ (w2 >>> 10)
  m32 (w16 + s0 + w7 + s1)

/-- Extend the 16 block words to the 64 scheduled words. -/
def schedule (block : List Nat) : List Nat :=
  let rec go (fuel : Nat) (recent : List Nat) (acc : List Nat) : List Nat :=
    match fuel with
    | 0 => acc.reverse
    | f + 1 =>
      let w := nextW recent
      go f (w :: recent) (w :: acc)
  go 48 block.reverse block.reverse

/-- One round of the compression function. -/
def round (st : List Nat) (kw : Nat × Nat) : List Nat :=
  match st with
  | [a, b, c, d, e, f, g, h] =>
    let s1 := (rotr 6 e) ^^^ (rotr 11 e) ^^^ (rotr 25 e)
    let ch := (e &&& f) ^^^ ((4294967295 - e) &&& g)
    let t1 := m32 (h + s1 + ch + kw.1 + kw.2)
    let s0 := (rotr 2 a) ^^^ (rotr 13 a) ^^^ (rotr 22 a)
    let mj := (a &&& b) ^^^ (a &&& c) ^^^ (b &&& c)
    let t2 := m32 (s0 + mj)
    [m32 (t1 + t2), a, b, c, m32 (d + t1), e, f, g]
  | other => other

/-- Compress one 16-word block into the running state. -/
def compress (st : List Nat) (block : List Nat) : List Nat :=
  let ws := schedule block
  let fin := (K.zip ws).foldl round st
  (st.zip fin).map fun p => m32 (p.1 + p.2)

/-- SHA-256 of a byte string: the 32 raw digest bytes. -/
def sha256 (msg : List Nat) : List Nat :=
  let blocks := toBlocks (toWords (pad msg))
  let fin := blocks.foldl compress H0
  fin.flatMap (beBytes 4)

/-- Lowercase hex character of a value < 16. -/
def hexChar (n : Nat) : Char :=
  if n < 10 then Char.ofNat (48 + n) else Char.ofNat (87 + n)

/-- Lowercase hex encoding of a byte string. -/
def bytesToHex (bs : List Nat) : String :=
  String.mk (bs.flatMap fun b => [hexChar (b / 16), hexChar (b % 16)])

/-- The UTF-8 bytes of a string (all strings in UkweliDB's canonical
material are ASCII, where UTF-8 is the identity on code points). -/
def strBytes (s : String) : List Nat := s.data.map Char.toNat

/-- Model of `sha256::digest` on bytes: lowercase hex of the digest. -/
def digestBytes (bs : List Nat) : String := bytesToHex (sha256 bs)

/-- Model of `sha256::digest` on a string. -/
def digestString (s : String) : String := digestBytes (strBytes s)

end Sha256

/-! ## Small utilities shared by the embedding -/

/-- Little-endian split of a `Nat` into `n` bytes (least significant first);
models `u64::to_le_bytes` / `u32::to_le_bytes`. -/
def leBytes (n v : Nat) : List Nat :=
  match n with
  | 0 => []
  | k + 1 => v % 256 :: leBytes k (v / 256)

/-- Little-endian reading of bytes as a `Nat`; models `u64::from_le_bytes` /
`u32::from_le_bytes`. -/
def leNat : List Nat → Nat
  | [] => 0
  | b :: rest => b + 256 * leNat rest

/-- Value of a hex character, if it is one. -/
def hexVal (c : Char) : Option Nat :=
  let n := c.toNat
  if 48 ≤ n ∧ n ≤ 57 then some (n - 48)
  else if 97 ≤ n ∧ n ≤ 102 then some (n - 87)
  else if 65 ≤ n ∧ n ≤ 70 then some (n - 55)
  else none

/-- Model of `hex::decode`: hex string to raw bytes, failing on a non-hex
character or an odd length. -/
def hexDecode (s : String) : Except String (List Nat) :=
  let rec go : List Char → Except String (List Nat)
    | [] => .ok []
    | [_] => .error "Odd number of digits"
    | a :: b :: rest => do
      let hi ← (hexVal a).elim (.error "Invalid character") .ok
      let lo ← (hexVal b).elim (.error "Invalid character") .ok
      let tail ← go rest
      .ok ((hi * 16 + lo) :: tail)
  go s.data

/-- Model of `<[u8; 32]>::try_from(&[u8])`: succeeds exactly when the slice
has length 32 (a slice-to-array conversion never truncates). -/
def tryInto32 (bs : List Nat) : Except Unit (List Nat) :=
  if bs.length = 32 then .ok bs else .error ()

/-- Rust's `{:?}` (Debug) rendering of a string: the string in double quotes
(the ids appearing in this development need no escaping). -/
def rustDebugStr (s : String) : String := "\"" ++ s ++ "\""

/-- Rust's `{:?}` (Debug) rendering of a `Vec<String>`. -/
def rustDebugStrList (xs : List String) : String :=
  "[" ++ String.intercalate ", " (xs.map rustDebugStr) ++ "]"

/-! ### Association-list model of `std::collections::HashMap`

Only `get` / `contains_key` / `insert` / iteration are used by the source.
`insert` replaces the value in place when the key is present (as `HashMap`
does) and otherwise appends; iteration follows insertion order (a concrete
stand-in for `HashMap`'s unspecified order). -/

/-- An association map with `String` keys. -/
abbrev AssocMap (α : Type) := List (String × α)

/-- Model of `HashMap::get`. -/
def AssocMap.lookup {α : Type} (m : AssocMap α) (k : String) : Option α :=
  match m with
  | [] => none
  | (k', v) :: rest => if k' = k then some v else lookup rest k

/-- Model of `HashMap::contains_key`. -/
def AssocMap.containsKey {α : Type} (m : AssocMap α) (k : String) : Bool :=
  (m.lookup k).isSome

/-- Model of `HashMap::insert` (replace in place, else append). -/
def AssocMap.insert {α : Type} (m : AssocMap α) (k : String) (v : α) :
    AssocMap α :=
  match m with
  | [] => [(k, v)]
  | (k', v') :: rest =>
    if k' = k then (k', v) :: rest else (k', v') :: insert rest k v

/-! ## Model of the `ed25519_dalek` crate

Modelled at the interface level: a key pair is a `Nat` handle (the
verifying key the source derives from a signing key is modelled as the
same handle), and a signature is its 64-byte wire form.  Ed25519 signing
is deterministic, so `signBytes` is a function of key and message, and
`verify_strict` accepts exactly the signature that the matching key
produces on the same message. -/

/-- The 64 signature bytes produced by key `key` over message `msg`
(interface model of `SigningKey::sign`). -/
def signBytes (key : Nat) (msg : List Nat) : List Nat :=
  key % 256 :: msg.length % 256 ::
    (msg.foldl (fun a b => (a + b) % 256) 0) :: List.replicate 61 0

/-- Model of `VerifyingKey::verify_strict`, as the boolean outcome. -/
def verifyStrict (vk : Nat) (msg sig : List Nat) : Bool :=
  sig = signBytes vk msg

/-- Model of `VerifyingKey::to_bytes`: 32 little-endian bytes of the
handle. -/
def vkToBytes (vk : Nat) : List Nat := leBytes 32 vk

/-- Model of `VerifyingKey::from_bytes` on a 32-byte string.  The real
function can reject byte strings that are not valid curve points; no claim
depends on that, so the model accepts every 32-byte string. -/
def vkFromBytes (bs : List Nat) : Except String Nat := .ok (leNat bs)

/-- Decidable equality of `Except` results (needed to evaluate the
embedded operations on concrete inputs). -/
instance {ε α : Type} [DecidableEq ε] [DecidableEq α] :
    DecidableEq (Except ε α)
  | .ok a, .ok b =>
    if h : a = b then .isTrue (h ▸ rfl)
    else .isFalse fun hh => h (Except.ok.inj hh)
  | .error a, .error b =>
    if h : a = b then .isTrue (h ▸ rfl)
    else .isFalse fun hh => h (Except.error.inj hh)
  | .ok _, .error _ => .isFalse fun hh => Except.noConfusion hh
  | .error _, .ok _ => .isFalse fun hh => Except.noConfusion hh

/-! ## `src/error.rs` — the error taxonomy -/

/-- The `LedgerError` from `src/error.rs` (the source spells the first variant
`UnregistedUser`). -/
inductive LedgerError where
  | UnregistedUser
  | RecordAccessFailed
  | EmptyPayload
  | ChainValidation (msg : String)
  | ClockError (msg : String)
  | NoSigners
  | DuplicateRecord
  | InvalidTimestamp
deriving DecidableEq, Repr

/-- The `thiserror` `Display` rendering of a `LedgerError` (used when an
error is interpolated into another message). -/
def LedgerError.display : LedgerError → String
  | .UnregistedUser => "User not registered on Ledger"
  | .RecordAccessFailed => "System error: Could not access previous record"
  | .EmptyPayload => "Payload cannot be empty"
  | .ChainValidation msg => msg
  | .ClockError msg => "Clock error: " ++ msg
  | .NoSigners => "No signers provided"
  | .DuplicateRecord => "Duplicate record detected"
  | .InvalidTimestamp => "Timestamp out of acceptable range"

/-- The `WorkflowError` from `src/error.rs`. -/
inductive WorkflowError where
  | Definition (msg : String)
  | Validation (msg : String)
  | Parsing (msg : String)
deriving DecidableEq, Repr

/-- The kind of a propagated `std::io::Error` (only end-of-file is ever
distinguished by the source). -/
inductive IoErrorKind where
  | unexpectedEof
  | other (msg : String)
deriving DecidableEq, Repr

/-- The `StorageError` from `src/error.rs`. -/
inductive StorageError where
  | Io (kind : IoErrorKind)
  | InvalidMagic
  | UnsupportedVersion (major minor : Nat)
  | Serialization (msg : String)
  | Deserialization (msg : String)
  | ChecksumMismatch
  | ValidationFailed (msg : String)
deriving DecidableEq, Repr

/-! ## `src/core/user.rs` -/

/-- The `User`: the signing key handle is random in the source (`OsRng`), so
`User.new` takes it as an explicit parameter; the derived verifying key is
the same handle (see the `ed25519_dalek` model above).  The `HashSet` of
roles is a duplicate-free list in insertion order. -/
structure User where
  user_id : String
  signing_key : Nat
  verifying_key : Nat
  roles : List String
deriving DecidableEq, Repr

/-- The `User::new` — generates a fresh keypair from the given entropy. -/
def User.new (user_id : String) (key : Nat) : User :=
  { user_id := user_id, signing_key := key, verifying_key := key, roles := [] }

/-- The `User::sign`. -/
def User.sign (u : User) (data : List Nat) : List Nat :=
  signBytes u.signing_key data

/-- The `User::add_role` (`HashSet::insert`). -/
def User.add_role (u : User) (role : String) : User :=
  if role ∈ u.roles then u else { u with roles := u.roles ++ [role] }

/-- The `User::has_role`. -/
def User.has_role (u : User) (role : String) : Bool := role ∈ u.roles

/-! ## `src/core/record.rs` -/

/-- The `Record`.  A stored signature is its 64-byte wire form (the
`ed25519_dalek::Signature` model). -/
structure Record where
  index : Nat
  payload : String
  payload_hash : String
  signers : List User
  signatures : AssocMap (List Nat)
  prev_hash : String
  record_hash : String
  timestamp : Nat
  nonce : Nat
deriving DecidableEq, Repr

/-- The canonical material string of `Record::new`: the space-separated
concatenation of index, prev_hash, payload_hash, timestamp, nonce, and the
comma-joined signer ids. -/
def recordMaterial (index : Nat) (prev_hash payload_hash : String)
    (timestamp nonce : Nat) (signer_ids : List String) : String :=
  toString index ++ " " ++ prev_hash ++ " " ++ payload_hash ++ " " ++
    toString timestamp ++ " " ++ toString nonce ++ " " ++
    String.intercalate "," signer_ids

/-- The `Record::new`.  The source reads the wall clock and a random nonce;
both are explicit parameters here. -/
def Record.new (index : Nat) (payload prev_hash : String)
    (signers : List User) (timestamp nonce : Nat) : Record :=
  let payload_hash := Sha256.digestString payload
  let joined_signers := signers.map (·.user_id)
  let material :=
    recordMaterial index prev_hash payload_hash timestamp nonce joined_signers
  let record_hash := Sha256.digestString material
  let record_signatures := signers.foldl
    (fun m s => AssocMap.insert m s.user_id (s.sign (Sha256.strBytes record_hash))) []
  { index := index
    payload := payload
    payload_hash := payload_hash
    signers := signers
    signatures := record_signatures
    prev_hash := prev_hash
    record_hash := record_hash
    timestamp := timestamp
    nonce := nonce }

/-! ## `src/core/ledger.rs` -/

def GENESIS_PREV_HASH : String := "00000000"

/-- The `Ledger`. -/
structure Ledger where
  records : List Record
  users : AssocMap User
  verify_registry : AssocMap Nat
deriving DecidableEq, Repr

/-- The `Ledger::new`.  The genesis user's random keypair, the wall-clock
timestamp and the random nonce of the genesis record are explicit
parameters.  As in the source, `Record::new` already signs for the genesis
user and the constructor then re-inserts the same signature. -/
def Ledger.new (genesisKey ts nonce : Nat) : Ledger :=
  let genesis_user := User.new "GENESIS" genesisKey
  let genesis_record := Record.new 0 "Genesis" GENESIS_PREV_HASH
    [genesis_user] ts nonce
  let users : AssocMap User := AssocMap.insert [] genesis_user.user_id genesis_user
  let verify_registry : AssocMap Nat :=
    AssocMap.insert [] genesis_user.user_id genesis_user.verifying_key
  let signature := genesis_user.sign (Sha256.strBytes genesis_record.record_hash)
  let genesis_record :=
    { genesis_record with
      signatures := AssocMap.insert genesis_record.signatures genesis_user.user_id signature }
  { records := [genesis_record]
    users := users
    verify_registry := verify_registry }

/-- The first signer whose id is not in the verify-registry, if any
(the order of the source's rejection loop in `add_record`). -/
def firstUnregistered (l : Ledger) (signers : List User) : Option User :=
  signers.find? fun s => ! AssocMap.containsKey l.verify_registry s.user_id

/-- The `Ledger::add_record`.  Returns the updated ledger together with the
returned index; wall clock and nonce are explicit parameters. -/
def Ledger.addRecord (l : Ledger) (payload : String) (signers : List User)
    (timestamp nonce : Nat) : Except LedgerError (Ledger × Nat) :=
  match firstUnregistered l signers with
  | some _ => .error .UnregistedUser
  | none =>
    match l.records.getLast? with
    | none => .error .RecordAccessFailed
    | some last_record =>
      if payload = "" then .error .EmptyPayload
      else
        let record := Record.new (last_record.index + 1) payload
          last_record.record_hash signers timestamp nonce
        let ret_index := record.index
        .ok ({ l with records := l.records ++ [record] }, ret_index)

/-- The `Ledger::register_user`. -/
def Ledger.registerUser (l : Ledger) (user : User) : Ledger :=
  { l with
    users := AssocMap.insert l.users user.user_id user
    verify_registry := AssocMap.insert l.verify_registry user.user_id user.verifying_key }

/-- The `Ledger::length`. -/
def Ledger.length (l : Ledger) : Nat := l.records.length

/-- The `Display` message of the `ed25519_dalek` signature-verification
error (never exercised by any claim; interface model). -/
def signatureErrorMsg : String := "signature error"

/-- The `Ledger::verify_signatures`, for one record: look up each signer's
verifying key and stored signature and check the signature over the bytes
of the hex `record_hash`. -/
def Ledger.verifySignatures (l : Ledger) (record : Record) :
    Except LedgerError Bool :=
  let rec go : List User → Except LedgerError Bool
    | [] => .ok true
    | signer :: rest =>
      match AssocMap.lookup l.verify_registry signer.user_id with
      | none =>
        .error (.ChainValidation ("Unknown signer " ++ rustDebugStr signer.user_id))
      | some verify_key =>
        match AssocMap.lookup record.signatures signer.user_id with
        | none =>
          .error (.ChainValidation ("Missing signature from " ++ signer.user_id))
        | some signature =>
          if verifyStrict verify_key (Sha256.strBytes record.record_hash) signature
          then go rest
          else .error (.ChainValidation signatureErrorMsg)
  go record.signers

/-- One iteration of the `verify_chain` loop, at position `i`. -/
def Ledger.verifyChainStep (l : Ledger) (i : Nat) (record : Record) :
    Except LedgerError Unit := do
  if i = 0 then
    if record.prev_hash ≠ GENESIS_PREV_HASH then
      throw (.ChainValidation "Invalid genesis")
  else
    match l.records[i - 1]? with
    | none => throw .RecordAccessFailed
    | some prev_record =>
      if record.prev_hash ≠ prev_record.record_hash then
        throw (.ChainValidation ("Broken chain at " ++ toString i))
  let computed_payload_hash := Sha256.digestString record.payload
  if computed_payload_hash ≠ record.payload_hash then
    throw (.ChainValidation ("Payload tampered at " ++ toString i))
  let joined_signers := String.intercalate "," (record.signers.map (·.user_id))
  let material := toString record.index ++ " " ++ record.prev_hash ++ " " ++
    record.payload_hash ++ " " ++ joined_signers
  let computed_record_hash := Sha256.digestString material
  if computed_record_hash ≠ record.record_hash then
    throw (.ChainValidation ("Record hash mismatch at " ++ toString i))
  match l.verifySignatures record with
  | .ok _ => pure ()
  | .error e =>
    throw (.ChainValidation ("Signature validation failed: " ++ e.display))

/-- The `verify_chain` loop over the enumerated records from position `i`. -/
def Ledger.verifyChainFrom (l : Ledger) : Nat → List Record →
    Except LedgerError Bool
  | _, [] => .ok true
  | i, record :: rest => do
    let _ ← l.verifyChainStep i record
    l.verifyChainFrom (i + 1) rest

/-- The `Ledger::verify_chain`.  Note the recomputed material here has only
four space-separated fields — `index`, `prev_hash`, `payload_hash` and the
joined signer ids — whereas `Record::new` hashed six (with `timestamp` and
`nonce`); this mirrors the source exactly. -/
def Ledger.verifyChain (l : Ledger) : Except LedgerError Bool :=
  l.verifyChainFrom 0 l.records

/-! ## `src/storage/persitence.rs` — serializable forms -/

/-- The `SerializableRecord`. -/
structure SerializableRecord where
  index : Nat
  payload : String
  payload_hash : String
  signer_ids : List String
  signatures : List (String × List Nat)
  prev_hash : String
  record_hash : String
  timestamp : Nat
  nonce : Nat
deriving DecidableEq, Repr

/-- The `impl From<&Record> for SerializableRecord` (`Signature::to_bytes` is
the identity in the signature model). -/
def SerializableRecord.ofRecord (r : Record) : SerializableRecord :=
  { index := r.index
    payload := r.payload
    payload_hash := r.payload_hash
    signer_ids := r.signers.map (·.user_id)
    signatures := r.signatures
    prev_hash := r.prev_hash
    record_hash := r.record_hash
    timestamp := r.timestamp
    nonce := r.nonce }

/-- The `SerializableUser`. -/
structure SerializableUser where
  user_id : String
  verifying_key_bytes : List Nat
  roles : List String
deriving DecidableEq, Repr

/-- The `impl From<&User> for SerializableUser`. -/
def SerializableUser.ofUser (u : User) : SerializableUser :=
  { user_id := u.user_id
    verifying_key_bytes := vkToBytes u.verifying_key
    roles := u.roles }

/-! ## Model of the `rkyv` crate

`rkyv::to_bytes` / `rkyv::access` + `rkyv::deserialize` are an external
serialization format; they are modelled by a simple executable codec: a
natural number is its decimal digits terminated by the byte 255, strings,
byte strings and lists are length-prefixed.  The codec is total on the
encoding side (as `rkyv::to_bytes` is, in practice, for these types) and
partial on the decoding side. -/

/-- Encode a natural number. -/
def encNat (n : Nat) : List Nat := Sha256.strBytes (toString n) ++ [255]

/-- Decode a natural number. -/
def decNat (bs : List Nat) : Except String (Nat × List Nat) :=
  match bs.span (· ≠ 255) with
  | (digits, 255 :: rest) =>
    .ok (digits.foldl (fun a c => a * 10 + (c - 48)) 0, rest)
  | _ => .error "expected integer terminator"

/-- Encode a string (ASCII in this development). -/
def encStr (s : String) : List Nat :=
  encNat s.data.length ++ Sha256.strBytes s

/-- Decode a string. -/
def decStr (bs : List Nat) : Except String (String × List Nat) := do
  let (n, rest) ← decNat bs
  if rest.length < n then .error "string out of bounds"
  else .ok (String.mk ((rest.take n).map Char.ofNat), rest.drop n)

/-- Encode a raw byte string. -/
def encBytes (b : List Nat) : List Nat := encNat b.length ++ b

/-- Decode a raw byte string. -/
def decBytes (bs : List Nat) : Except String (List Nat × List Nat) := do
  let (n, rest) ← decNat bs
  if rest.length < n then .error "bytes out of bounds"
  else .ok (rest.take n, rest.drop n)

/-- Encode a list, length-prefixed. -/
def encList {α : Type} (f : α → List Nat) (xs : List α) : List Nat :=
  encNat xs.length ++ xs.flatMap f

/-- Decode exactly `n` consecutive values. -/
def decCount {α : Type} (dec : List Nat → Except String (α × List Nat)) :
    Nat → List Nat → Except String (List α × List Nat)
  | 0, bs => .ok ([], bs)
  | n + 1, bs => do
    let (a, bs₁) ← dec bs
    let (as, bs₂) ← decCount dec n bs₁
    .ok (a :: as, bs₂)

/-- Decode a length-prefixed list. -/
def decList {α : Type} (dec : List Nat → Except String (α × List Nat))
    (bs : List Nat) : Except String (List α × List Nat) := do
  let (n, rest) ← decNat bs
  decCount dec n rest

/-- Encode a `(String, Vec<u8>)` signature pair. -/
def encSigPair (p : String × List Nat) : List Nat :=
  encStr p.1 ++ encBytes p.2

/-- Decode a `(String, Vec<u8>)` signature pair. -/
def decSigPair (bs : List Nat) : Except String ((String × List Nat) × List Nat) := do
  let (s, bs₁) ← decStr bs
  let (b, bs₂) ← decBytes bs₁
  .ok ((s, b), bs₂)

/-- Serialized bytes of a `SerializableRecord` (`rkyv::to_bytes` model). -/
def rkyvEncodeRecord (r : SerializableRecord) : List Nat :=
  encNat r.index ++ encStr r.payload ++ encStr r.payload_hash ++
  encList encStr r.signer_ids ++ encList encSigPair r.signatures ++
  encStr r.prev_hash ++ encStr r.record_hash ++
  encNat r.timestamp ++ encNat r.nonce

/-- Deserialize a `SerializableRecord` (`rkyv::access` + `deserialize`
model); every byte must be consumed. -/
def rkyvDecodeRecord (data : List Nat) : Except String SerializableRecord := do
  let (index, bs₁) ← decNat data
  let (payload, bs₂) ← decStr bs₁
  let (payload_hash, bs₃) ← decStr bs₂
  let (signer_ids, bs₄) ← decList decStr bs₃
  let (signatures, bs₅) ← decList decSigPair bs₄
  let (prev_hash, bs₆) ← decStr bs₅
  let (record_hash, bs₇) ← decStr bs₆
  let (timestamp, bs₈) ← decNat bs₇
  let (nonce, bs₉) ← decNat bs₈
  if bs₉ = [] then
    .ok { index, payload, payload_hash, signer_ids, signatures, prev_hash,
          record_hash, timestamp, nonce }
  else .error "trailing bytes"

/-- Serialized bytes of a `SerializableUser`. -/
def rkyvEncodeUser (u : SerializableUser) : List Nat :=
  encStr u.user_id ++ encBytes u.verifying_key_bytes ++ encList encStr u.roles

/-- Deserialize a `SerializableUser`; every byte must be consumed. -/
def rkyvDecodeUser (data : List Nat) : Except String SerializableUser := do
  let (user_id, bs₁) ← decStr data
  let (verifying_key_bytes, bs₂) ← decBytes bs₁
  let (roles, bs₃) ← decList decStr bs₂
  if bs₃ = [] then .ok { user_id, verifying_key_bytes, roles }
  else .error "trailing bytes"

/-! ## `src/storage/database.rs`

Modelled from the spec: `database.rs` is referenced by the storage modules
but is not among the given sources.  The structures below follow §4.3 of
the specification (magic `UKWL`, version 1.0, `HEADER_REGION = 64`) and
the repository's own header tests in `persitence.rs` (field names,
`reserved` of 40 zero bytes, timestamps from the wall clock). -/

/-- Modelled from the spec: the snapshot magic `0x55 0x4B 0x57 0x4C`
("UKWL") of the missing `database.rs`. -/
def MAGIC_NUMBER : List Nat := [0x55, 0x4B, 0x57, 0x4C]

/-- Modelled from the spec: the fixed header region size of the missing
`database.rs` (64 bytes per §4.3/§6). -/
def HEADER_SIZE : Nat := 64

/-- Modelled from the spec: `DatabaseHeader` of the missing `database.rs`
(fields per §4.3 and the header tests in `persitence.rs`). -/
structure DatabaseHeader where
  magic : List Nat
  version_major : Nat
  version_minor : Nat
  record_count : Nat
  created_timestamp : Nat
  last_modified : Nat
  body_offset : Nat
  footer_offset : Nat
  checksum : List Nat
  reserved : List Nat
deriving DecidableEq, Repr

/-- Modelled from the spec: `DatabaseHeader::new` (version 1.0, zeroed
checksum and reserved region, wall clock as parameter). -/
def DatabaseHeader.new (record_count body_offset footer_offset now : Nat) :
    DatabaseHeader :=
  { magic := MAGIC_NUMBER
    version_major := 1
    version_minor := 0
    record_count := record_count
    created_timestamp := now
    last_modified := now
    body_offset := body_offset
    footer_offset := footer_offset
    checksum := List.replicate 32 0
    reserved := List.replicate 40 0 }

/-- Modelled from the spec: `DatabaseBody` of the missing `database.rs`
(two parallel lists of serialized records and users, §4.3). -/
structure DatabaseBody where
  records : List SerializableRecord
  users : List SerializableUser
deriving DecidableEq, Repr

/-- Modelled from the spec: `DatabaseFooter` of the missing `database.rs`
(32-byte integrity hash and total file size, §4.3). -/
structure DatabaseFooter where
  integrity_hash : List Nat
  total_file_size : Nat
deriving DecidableEq, Repr

/-- Serialized bytes of a `DatabaseHeader` (`rkyv::to_bytes` model). -/
def rkyvEncodeHeader (h : DatabaseHeader) : List Nat :=
  h.magic ++ encNat h.version_major ++ encNat h.version_minor ++
  encNat h.record_count ++ encNat h.created_timestamp ++
  encNat h.last_modified ++ encNat h.body_offset ++ encNat h.footer_offset ++
  h.checksum ++ h.reserved

/-- Serialized bytes of a `DatabaseBody`. -/
def rkyvEncodeBody (b : DatabaseBody) : List Nat :=
  encList rkyvEncodeRecord b.records ++ encList rkyvEncodeUser b.users

/-- Serialized bytes of a `DatabaseFooter`. -/
def rkyvEncodeFooter (f : DatabaseFooter) : List Nat :=
  f.integrity_hash ++ encNat f.total_file_size

/-! ## `src/storage/writer.rs` -/

/-- The `DatabaseWriter::write_ledger`.  The file is the returned byte string;
the wall clock read inside `DatabaseHeader::new` is the parameter `now`.
The checksum step converts the ASCII bytes of the 64-character hex digest
with `<[u8; 32]>::try_from`, exactly as the source does. -/
def writeLedger (ledger : Ledger) (now : Nat) :
    Except StorageError (List Nat) :=
  let records := ledger.records.map SerializableRecord.ofRecord
  let users := ledger.users.map fun p => SerializableUser.ofUser p.2
  let body : DatabaseBody := { records := records, users := users }
  let body_bytes := rkyvEncodeBody body
  let body_checksum := Sha256.digestBytes body_bytes
  match tryInto32 (Sha256.strBytes body_checksum) with
  | .error _ => .error (.Serialization "Checksum conversion failed")
  | .ok checksum_bytes =>
    let body_offset := HEADER_SIZE
    let footer_offset := body_offset + body_bytes.length
    let header :=
      { DatabaseHeader.new ledger.records.length body_offset footer_offset now
        with checksum := checksum_bytes }
    let header_bytes := rkyvEncodeHeader header
    let pre_footer_data := header_bytes ++ body_bytes
    let integrity_hash := Sha256.digestBytes pre_footer_data
    match tryInto32 (Sha256.strBytes integrity_hash) with
    | .error _ => .error (.Serialization "Integrity hash conversion failed")
    | .ok integrity_bytes =>
      let footer : DatabaseFooter :=
        { integrity_hash := integrity_bytes
          total_file_size := HEADER_SIZE + body_bytes.length + 64 }
      let footer_bytes := rkyvEncodeFooter footer
      let padding := List.replicate (HEADER_SIZE - header_bytes.length) 0
      .ok (header_bytes ++ padding ++ body_bytes ++ footer_bytes)

/-! ## `src/storage/append.rs` — the WAL -/

def APPEND_MAGIC : List Nat := [0x41, 0x50, 0x4E, 0x44]

def ENTRY_HEADER_SIZE : Nat := 49

/-- The `AppendEntry`. -/
structure AppendEntry where
  magic : List Nat
  entry_type : Nat
  timestamp : Nat
  data_size : Nat
  checksum : List Nat
deriving DecidableEq, Repr

/-- The `AppendEntry::new` (wall clock as parameter). -/
def AppendEntry.new (entry_type data_size : Nat) (checksum : List Nat)
    (now : Nat) : AppendEntry :=
  { magic := APPEND_MAGIC
    entry_type := entry_type
    timestamp := now
    data_size := data_size
    checksum := checksum }

/-- The `AppendEntry::to_bytes`: 4 magic bytes, 1 type byte, 8 little-endian
timestamp bytes, 4 little-endian size bytes, 32 checksum bytes. -/
def AppendEntry.toBytes (e : AppendEntry) : List Nat :=
  e.magic ++ [e.entry_type] ++ leBytes 8 e.timestamp ++
    leBytes 4 e.data_size ++ e.checksum

/-- The `AppendEntry::from_bytes` with the source's bound-checked reads (the
source always calls it on a 49-byte buffer, where every check passes). -/
def AppendEntry.fromBytes (bytes : List Nat) :
    Except StorageError AppendEntry :=
  if bytes.length < 4 then
    .error (.Deserialization "Failed to read magic bytes")
  else
    match bytes[4]? with
    | none => .error (.Deserialization "Failed to read entry_type")
    | some entry_type =>
      if bytes.length < 13 then
        .error (.Deserialization "Failed to read timestamp bytes")
      else if bytes.length < 17 then
        .error (.Deserialization "Failed to read data_size bytes")
      else if bytes.length < 49 then
        .error (.Deserialization "Failed to read checksum bytes")
      else
        .ok { magic := bytes.take 4
              entry_type := entry_type
              timestamp := leNat ((bytes.drop 5).take 8)
              data_size := leNat ((bytes.drop 13).take 4)
              checksum := (bytes.drop 17).take 32 }

/-- The `read_all_entries` loop.  `bytes` is the unread remainder of the
WAL file and `acc` the entries read so far (newest first).  A short read
of the fixed header is `UnexpectedEof` and breaks the loop cleanly; a
short read of the payload propagates the `UnexpectedEof` as an error via
`?`, as in the source.  `fuel` only bounds the recursion; every iteration
consumes at least 49 bytes, so `fuel = bytes.length + 1` never runs out. -/
def readAllEntriesAux :
    Nat → List Nat → List (AppendEntry × List Nat) →
    Except StorageError (List (AppendEntry × List Nat))
  | 0, _, acc => .ok acc.reverse
  | fuel + 1, bytes, acc =>
    if bytes.length < ENTRY_HEADER_SIZE then .ok acc.reverse
    else
      match AppendEntry.fromBytes (bytes.take ENTRY_HEADER_SIZE) with
      | .error e => .error e
      | .ok entry =>
        if entry.magic ≠ APPEND_MAGIC then .ok acc.reverse
        else
          let rest := bytes.drop ENTRY_HEADER_SIZE
          if rest.length < entry.data_size then
            .error (.Io .unexpectedEof)
          else
            let data := rest.take entry.data_size
            match hexDecode (Sha256.digestBytes data) with
            | .error _ => .error (.Deserialization "Checksum conversion failed")
            | .ok raw =>
              match tryInto32 raw with
              | .error _ =>
                .error (.Deserialization "Checksum conversion failed")
              | .ok computed_bytes =>
                if computed_bytes ≠ entry.checksum then .error .ChecksumMismatch
                else
                  readAllEntriesAux fuel (rest.drop entry.data_size)
                    ((entry, data) :: acc)

/-- The `AppendLog::read_all_entries` over the WAL file's bytes. -/
def readAllEntries (file : List Nat) :
    Except StorageError (List (AppendEntry × List Nat)) :=
  readAllEntriesAux (file.length + 1) file []

/-! ## `src/storage/recovery.rs` -/

/-- The entropy consumed by `Ledger::new` inside recovery (genesis
keypair, wall clock and nonce of the genesis record). -/
structure GenCtx where
  key : Nat
  ts : Nat
  nonce : Nat
deriving DecidableEq, Repr

/-- The `RecoveryManager::try_parse_signature`: exactly 64 bytes parse
(`Signature::from_bytes` is infallible on a 64-byte array). -/
def tryParseSignature (sig_bytes : List Nat) : Option (List Nat) :=
  if sig_bytes.length = 64 then some sig_bytes else none

/-- The signatures map rebuilt from `(user_id, bytes)` pairs: pairs whose
bytes do not parse are silently left out (both `reconstruct_from_body` and
`replay_wal` use this loop). -/
def rebuildSignatures (pairs : List (String × List Nat)) :
    AssocMap (List Nat) :=
  pairs.foldl
    (fun m p =>
      match tryParseSignature p.2 with
      | some sig => AssocMap.insert m p.1 sig
      | none => m)
    []

/-- The users loop of `reconstruct_from_body`: each `User::new` draws a
fresh keypair (`seed`, incremented per user, models `OsRng`). -/
def loadBodyUsers (seed : Nat) (l : Ledger) :
    List SerializableUser → Except StorageError Ledger
  | [] => .ok l
  | su :: rest =>
    if su.verifying_key_bytes.length ≠ 32 then
      .error (.Deserialization "Invalid verifying key length")
    else
      match vkFromBytes su.verifying_key_bytes with
      | .error e => .error (.Deserialization ("Invalid verifying key: " ++ e))
      | .ok verifying_key =>
        let user := su.roles.foldl User.add_role (User.new su.user_id seed)
        loadBodyUsers (seed + 1)
          { l with
            users := AssocMap.insert l.users su.user_id user
            verify_registry :=
              AssocMap.insert l.verify_registry su.user_id verifying_key }
          rest

/-- The records loop of `reconstruct_from_body`. -/
def loadBodyRecords (l : Ledger) :
    List SerializableRecord → Except StorageError Ledger
  | [] => .ok l
  | sr :: rest =>
    let signers := sr.signer_ids.filterMap fun user_id =>
      AssocMap.lookup l.users user_id
    if signers.length ≠ sr.signer_ids.length then
      .error (.Deserialization ("Missing signers for record " ++ toString sr.index))
    else
      let signatures := rebuildSignatures sr.signatures
      if signatures.length ≠ sr.signatures.length then
        .error (.Deserialization
          ("Invalid signatures for record " ++ toString sr.index))
      else
        let record : Record :=
          { index := sr.index
            payload := sr.payload
            payload_hash := sr.payload_hash
            signers := signers
            signatures := signatures
            prev_hash := sr.prev_hash
            record_hash := sr.record_hash
            timestamp := sr.timestamp
            nonce := sr.nonce }
        loadBodyRecords { l with records := l.records ++ [record] } rest

/-- Stable insertion of a record into an index-sorted list (a record with
an equal index goes after the existing ones). -/
def insertByIndex (r : Record) : List Record → List Record
  | [] => [r]
  | x :: xs =>
    if r.index < x.index then r :: x :: xs else x :: insertByIndex r xs

/-- The `Vec::sort_by(|a, b| a.index.cmp(&b.index))` — a stable sort by
index. -/
def sortByIndex (rs : List Record) : List Record :=
  rs.foldl (fun acc r => insertByIndex r acc) []

/-- The `RecoveryManager::reconstruct_from_body`.  `gc` and `seed` model the
entropy drawn by `Ledger::new` and the per-user `User::new` calls. -/
def reconstructFromBody (gc : GenCtx) (seed : Nat) (body : DatabaseBody) :
    Except StorageError Ledger := do
  let base := Ledger.new gc.key gc.ts gc.nonce
  let cleared : Ledger := { base with records := [], users := [], verify_registry := [] }
  let withUsers ← loadBodyUsers seed cleared body.users
  let withRecords ← loadBodyRecords withUsers body.records
  .ok { withRecords with records := sortByIndex withRecords.records }

/-- The `RecoveryManager::replay_wal`.  `seed` models the `OsRng` keypairs
drawn by `User::new` for replayed type-2 entries. -/
def replayWal (seed : Nat) (l : Ledger) :
    List (AppendEntry × List Nat) → Except StorageError Ledger
  | [] => .ok l
  | (entry, data) :: rest =>
    if entry.entry_type = 1 then
      match rkyvDecodeRecord data with
      | .error e =>
        .error (.Deserialization ("Failed to access WAL record: " ++ e))
      | .ok sr =>
        let signers := sr.signer_ids.filterMap fun user_id =>
          AssocMap.lookup l.users user_id
        if signers.isEmpty then replayWal seed l rest
        else
          let signatures := rebuildSignatures sr.signatures
          let record : Record :=
            { index := sr.index
              payload := sr.payload
              payload_hash := sr.payload_hash
              signers := signers
              signatures := signatures
              prev_hash := sr.prev_hash
              record_hash := sr.record_hash
              timestamp := sr.timestamp
              nonce := sr.nonce }
          if l.records.any fun r => r.index = record.index then
            replayWal seed l rest
          else
            replayWal seed { l with records := l.records ++ [record] } rest
    else if entry.entry_type = 2 then
      match rkyvDecodeUser data with
      | .error e =>
        .error (.Deserialization ("Failed to access WAL user: " ++ e))
      | .ok su =>
        if su.verifying_key_bytes.length ≠ 32 then
          .error (.Deserialization "Invalid verifying key length")
        else
          match vkFromBytes su.verifying_key_bytes with
          | .error e =>
            .error (.Deserialization ("Invalid verifying key: " ++ e))
          | .ok verifying_key =>
            if AssocMap.containsKey l.verify_registry su.user_id then
              replayWal seed l rest
            else
              let user := su.roles.foldl User.add_role (User.new su.user_id seed)
              replayWal (seed + 1)
                { l with
                  users := AssocMap.insert l.users su.user_id user
                  verify_registry :=
                    AssocMap.insert l.verify_registry su.user_id verifying_key }
                rest
    else
      .error (.Deserialization ("Unknown entry type: " ++ toString entry.entry_type))

/-- The `RecoveryManager::compact`.  The filesystem steps (backup copy, WAL
truncation, backup removal) are modelled as succeeding; the snapshot
rewrite is `write_ledger`, whose failure propagates as in the source. -/
def compact (ledger : Ledger) (now : Nat) : Except StorageError (List Nat) :=
  writeLedger ledger now

/-- The `RecoveryManager::create_snapshot`. -/
def createSnapshot (ledger : Ledger) (now : Nat) :
    Except StorageError (List Nat) :=
  writeLedger ledger now

/-- The Rust `{:?}` (Debug) rendering of a `LedgerError`. -/
def LedgerError.debugStr : LedgerError → String
  | .UnregistedUser => "UnregistedUser"
  | .RecordAccessFailed => "RecordAccessFailed"
  | .EmptyPayload => "EmptyPayload"
  | .ChainValidation msg => "ChainValidation(" ++ rustDebugStr msg ++ ")"
  | .ClockError msg => "ClockError(" ++ rustDebugStr msg ++ ")"
  | .NoSigners => "NoSigners"
  | .DuplicateRecord => "DuplicateRecord"
  | .InvalidTimestamp => "InvalidTimestamp"

/-- The error mapping `recover_ledger` applies to `verify_chain`
failures. -/
def mapChainError (e : LedgerError) : StorageError :=
  match e with
  | .ChainValidation msg => .ValidationFailed msg
  | e => .ValidationFailed ("Ledger error: " ++ e.debugStr)

/-- The `RecoveryManager::recover_from_wal`.  `walFile` is the WAL file's
bytes (`none` models an `AppendLog::new` open failure). -/
def recoverFromWal (gc : GenCtx) (seed : Nat) (walFile : Option (List Nat)) :
    Except StorageError Ledger := do
  match walFile with
  | none => .error (.Io (.other "open failed"))
  | some bytes =>
    let entries ← readAllEntries bytes
    if entries.isEmpty then
      .error (.ValidationFailed
        "Cannot recover: both main DB and WAL are corrupted/empty")
    else
      let base := Ledger.new gc.key gc.ts gc.nonce
      let cleared : Ledger := { base with records := [] }
      let ledger ← replayWal seed cleared entries
      .ok { ledger with records := sortByIndex ledger.records }

/-- The `RecoveryManager::recover_ledger`.  The byte-level snapshot parsing is
the external `rkyv` access, so the outcome of
`DatabaseReader::read_and_verify` is the parameter `readResult`;
`walFile` is the WAL file's bytes (`none` models an open failure);
`seed`/`seed'` model the `OsRng` draws of the two replay stages and `now`
the wall clock of a compaction rewrite. -/
def recoverLedger (gc : GenCtx) (seed seed' : Nat)
    (readResult : Except StorageError (DatabaseHeader × DatabaseBody))
    (walFile : Option (List Nat)) (now : Nat) :
    Except StorageError Ledger :=
  match readResult with
  | .ok (_header, body) => do
    let ledger ← reconstructFromBody gc seed body
    let ledger ←
      match walFile with
      | none => pure ledger
      | some bytes =>
        match readAllEntries bytes with
        | .ok entries =>
          if ¬ entries.isEmpty then do
            let replayed ← replayWal seed' ledger entries
            let _ ← compact replayed now
            pure replayed
          else pure ledger
        | .error _ => pure ledger
    match ledger.verifyChain with
    | .ok _ => .ok ledger
    | .error e => .error (mapChainError e)
  | .error .ChecksumMismatch => recoverFromWal gc seed' walFile
  | .error e => .error e

/-! ## `src/workflow/` — state, transition, definition, engine -/

/-- The `WorkflowState` from `src/workflow/state.rs`. -/
structure WorkflowState where
  id : String
  label : String
deriving DecidableEq, Repr

/-- The `Transition` from `src/workflow/transition.rs`. -/
structure Transition where
  from_state : String
  to_state : String
  name : String
  required_roles : List String
deriving DecidableEq, Repr

/-- The `Workflow` from `src/workflow/definition.rs`. -/
structure Workflow where
  id : String
  name : String
  description : String
  states : List WorkflowState
  transitions : List Transition
  initial_state : String
deriving DecidableEq, Repr

/-- The `Engine` from `src/workflow/engine.rs`. -/
structure Engine where
  workflows : AssocMap Workflow
deriving DecidableEq, Repr

/-- The `Engine::new`. -/
def Engine.new : Engine := { workflows := [] }

/-- The `Engine::load_workflow`.  The source round-trips its
`HashMap<String, Value>` argument through `serde_json`; that external
parsing stage is the parameter `parsed` (its error text is the
deserialization message the source produces).  Validation and catalog
insertion follow the source. -/
def Engine.loadWorkflow (e : Engine) (parsed : Except String Workflow) :
    Except WorkflowError (Engine × Workflow) :=
  match parsed with
  | .error msg =>
    .error (.Parsing ("Failed to deserialize workflow: " ++ msg))
  | .ok workflow =>
    if workflow.states.isEmpty then
      .error (.Definition "Workflow must have at least one state")
    else
      let state_ids := workflow.states.map (·.id)
      if ! state_ids.contains workflow.initial_state then
        .error (.Definition ("Start state '" ++ workflow.initial_state ++
          "' not found in workflow states"))
      else
        .ok ({ workflows := AssocMap.insert e.workflows workflow.id workflow },
          workflow)

/-- The `Engine::load_workflow_from_json`: parse (the external `serde_json`
stage is the parameter) and insert into the catalog with no validation. -/
def Engine.loadWorkflowFromJson (e : Engine) (parsed : Except String Workflow) :
    Except WorkflowError (Engine × Workflow) :=
  match parsed with
  | .error msg => .error (.Parsing ("Failed to parse workflow: " ++ msg))
  | .ok workflow =>
    .ok ({ workflows := AssocMap.insert e.workflows workflow.id workflow },
      workflow)

/-- The `Engine::get_valid_transitions`. -/
def Engine.getValidTransitions (e : Engine) (workflow_id current_state : String) :
    Except WorkflowError (List Transition) :=
  match AssocMap.lookup e.workflows workflow_id with
  | none => .error (.Parsing ("Unknown workflow " ++ workflow_id))
  | some workflow =>
    .ok (workflow.transitions.filter fun t => t.from_state == current_state)

/-- The `Engine::validate_transition`. -/
def Engine.validateTransition (e : Engine)
    (workflow_id from_state to_state : String) (signers : List User)
    (_payload : String) : Except WorkflowError Bool :=
  match AssocMap.lookup e.workflows workflow_id with
  | none => .error (.Parsing ("Unknown workflow " ++ workflow_id))
  | some workflow =>
    match workflow.transitions.find? fun t =>
        t.from_state == from_state && t.to_state == to_state with
    | none =>
      .error (.Validation ("No valid transition from " ++ from_state ++
        " to " ++ to_state))
    | some transition =>
      let signer_roles := signers.flatMap (·.roles)
      let missing_roles := transition.required_roles.filter
        fun r => ! signer_roles.contains r
      if ! missing_roles.isEmpty then
        .error (.Validation ("Missing required roles: " ++
          rustDebugStrList missing_roles))
      else .ok true


/-! ## Concrete inputs used by the claim theorems -/

/-- A serialized record whose chain linkage is invalid (`prev_hash` is not
the genesis sentinel at index 0), signed by the genesis user id. -/
def c3SerRecord : SerializableRecord :=
  { index := 0, payload := "p", payload_hash := "h", signer_ids := ["GENESIS"],
    signatures := [], prev_hash := "ff", record_hash := "r",
    timestamp := 0, nonce := 0 }

/-- The WAL payload bytes of `c3SerRecord`. -/
def c3Data : List Nat := rkyvEncodeRecord c3SerRecord

/-- A WAL file holding one well-formed type-1 entry carrying
`c3SerRecord` (header checksum is the real digest of the payload). -/
def c3Wal : List Nat :=
  (AppendEntry.new 1 c3Data.length (Sha256.sha256 c3Data) 0).toBytes ++ c3Data

/-- A registered user for the replay scenarios. -/
def c4UserA : User := User.new "a" 5

/-- A ledger knowing only user `"a"`. -/
def c4Ledger : Ledger :=
  { records := [], users := [("a", c4UserA)], verify_registry := [("a", 5)] }

/-- A serialized record signed by the known user `"a"` and the unknown
user `"b"`. -/
def c4SerRecord : SerializableRecord :=
  { index := 0, payload := "p", payload_hash := "h", signer_ids := ["a", "b"],
    signatures := [("a", List.replicate 64 1)], prev_hash := "q",
    record_hash := "r", timestamp := 2, nonce := 3 }

/-- The WAL payload bytes of `c4SerRecord`. -/
def c4Data : List Nat := rkyvEncodeRecord c4SerRecord

/-- A type-1 WAL entry header for `c4Data`. -/
def c4Entry : AppendEntry :=
  AppendEntry.new 1 c4Data.length (Sha256.sha256 c4Data) 0

/-- An empty ledger (as a raw structure, not via `Ledger::new`). -/
def emptyLedger : Ledger :=
  { records := [], users := [], verify_registry := [] }

/-- A user registered under id `"a"` with key handle 1. -/
def c6UserK1 : User := User.new "a" 1

/-- Another user with the same id `"a"` but a different key handle. -/
def c6UserK2 : User := User.new "a" 2

/-- A ledger in which `"a"` is registered with key handle 1. -/
def c6Ledger : Ledger :=
  { records := [], users := [("a", c6UserK1)], verify_registry := [("a", 1)] }

/-- A WAL entry header announcing a 5-byte payload. -/
def c7Entry : AppendEntry := AppendEntry.new 1 5 (List.replicate 32 0) 0

/-- A WAL file whose last (and only) entry has a complete 49-byte header
but only 2 of its announced 5 payload bytes. -/
def c7File : List Nat := c7Entry.toBytes ++ [1, 2]

/-- The S6 workflow of the spec: draft → review (editor), review →
published (admin and editor). -/
def c8Workflow : Workflow :=
  { id := "wf", name := "Test", description := "S6"
    states := [{ id := "draft", label := "Draft" },
               { id := "review", label := "Review" },
               { id := "published", label := "Published" }]
    transitions :=
      [{ from_state := "draft", to_state := "review", name := "Submit",
         required_roles := ["editor"] },
       { from_state := "review", to_state := "published", name := "Publish",
         required_roles := ["admin", "editor"] }]
    initial_state := "draft" }

/-- An engine with the S6 workflow loaded. -/
def c8Engine : Engine := { workflows := [("wf", c8Workflow)] }

/-- A signer holding only the `admin` role. -/
def c8Admin : User := (User.new "ua" 1).add_role "admin"

/-- A signer holding only the `editor` role. -/
def c8Editor : User := (User.new "ue" 2).add_role "editor"

/-- A workflow definition with an empty states list (and an initial state
that therefore names no defined state). -/
def c9Workflow : Workflow :=
  { id := "bad", name := "Bad", description := ""
    states := []
    transitions := [{ from_state := "a", to_state := "b", name := "t",
                      required_roles := [] }]
    initial_state := "a" }

/-- A registered user for the malformed-signature scenarios. -/
def c10User : User := User.new "a" 9

/-- A ledger knowing only user `"a"` (key handle 9). -/
def c10Ledger : Ledger :=
  { records := [], users := [("a", c10User)], verify_registry := [("a", 9)] }

/-- A serialized record whose only stored signature has the given byte
string (interesting when its length is not 64). -/
def c10SerRecord (bad : List Nat) : SerializableRecord :=
  { index := 1, payload := "p", payload_hash := "h", signer_ids := ["a"],
    signatures := [("a", bad)], prev_hash := "q", record_hash := "r",
    timestamp := 2, nonce := 3 }

/-- The serialized form of `c10User`. -/
def c10SerUser : SerializableUser :=
  { user_id := "a", verifying_key_bytes := vkToBytes 9, roles := [] }

/-- A snapshot body holding `c10SerRecord bad` and `c10SerUser`. -/
def c10Body (bad : List Nat) : DatabaseBody :=
  { records := [c10SerRecord bad], users := [c10SerUser] }

/-! # Theorems

Supporting lemmas first, then one theorem per specification claim
(with its witness or counterexample where required). -/

namespace Sha256

/-- Lemma: `beBytes` produces exactly `n` bytes. -/
theorem beBytes_length (n v : Nat) : (beBytes n v).length = n := by
  induction n generalizing v with
  | zero => rfl
  | succ k ih => simp [beBytes, ih]

/-- A compression round preserves the length of the state list. -/
theorem round_length (st : List Nat) (kw : Nat × Nat) :
    (round st kw).length = st.length := by
  unfold round
  split <;> simp

/-- Folding rounds preserves the length of the state list. -/
theorem foldl_round_length (l : List (Nat × Nat)) (st : List Nat) :
    (l.foldl round st).length = st.length := by
  induction l generalizing st with
  | nil => rfl
  | cons a t ih => simpa [List.foldl_cons, round_length] using ih (round st a)

/-- Compression preserves the length-8 state. -/
theorem compress_length (st b : List Nat) (h : st.length = 8) :
    (compress st b).length = 8 := by
  simp [compress, foldl_round_length, h]

/-- Folding compressions preserves the length-8 state. -/
theorem foldl_compress_length (bs : List (List Nat)) (st : List Nat)
    (h : st.length = 8) : (bs.foldl compress st).length = 8 := by
  induction bs generalizing st with
  | nil => exact h
  | cons b t ih => exact ih _ (compress_length st b h)

/-- Lemma: `flatMap` with a constant-length function multiplies lengths. -/
theorem flatMap_length_const {α β : Type} (f : α → List β) (k : Nat)
    (hf : ∀ a, (f a).length = k) (l : List α) :
    (l.flatMap f).length = k * l.length := by
  induction l with
  | nil => simp
  | cons a t ih => simp [List.flatMap_cons, hf, ih, Nat.mul_succ, Nat.add_comm]

/-- A SHA-256 digest is exactly 32 bytes. -/
theorem sha256_length (msg : List Nat) : (sha256 msg).length = 32 := by
  have h8 : ((toBlocks (toWords (pad msg))).foldl compress H0).length = 8 :=
    foldl_compress_length _ H0 rfl
  simpa [sha256, flatMap_length_const (beBytes 4) 4 (beBytes_length 4)] using
    congrArg (4 * ·) h8

/-- The hex form of a digest is exactly 64 characters. -/
theorem digestBytes_length (bs : List Nat) :
    (digestBytes bs).length = 64 := by
  simp [digestBytes, bytesToHex, String.length,
    flatMap_length_const (fun b => [hexChar (b / 16), hexChar (b % 16)]) 2
      (fun _ => rfl), sha256_length]

/-- The UTF-8 byte string of a digest's hex form has 64 bytes. -/
theorem strBytes_digestBytes_length (bs : List Nat) :
    (strBytes (digestBytes bs)).length = 64 := by
  simp [strBytes, digestBytes_length]

end Sha256

/-- Lemma: `leBytes` produces exactly `n` bytes. -/
theorem leBytes_length (n v : Nat) : (leBytes n v).length = n := by
  induction n generalizing v with
  | zero => rfl
  | succ k ih => simp [leBytes, ih]

/-- Reduction of an `Except` bind on a success value. -/
theorem exceptBind_ok {ε α β : Type} (a : α) (f : α → Except ε β) :
    (Except.ok a >>= f) = f a := rfl

/-- Reduction of an `Except` bind on an error value. -/
theorem exceptBind_error {ε α β : Type} (e : ε) (f : α → Except ε β) :
    ((Except.error e : Except ε α) >>= f) = Except.error e := rfl

/-- Inserting the value already bound to a key leaves the map unchanged. -/
theorem AssocMap.insert_lookup_self {α : Type} (m : AssocMap α) (k : String)
    (v : α) (h : m.lookup k = some v) : m.insert k v = m := by
  induction m with
  | nil => simp [AssocMap.lookup] at h
  | cons p rest ih =>
    obtain ⟨k', v'⟩ := p
    by_cases hk : k' = k
    · subst hk
      simp [AssocMap.lookup] at h
      simp [AssocMap.insert, h]
    · simp [AssocMap.lookup, hk] at h
      simp [AssocMap.insert, hk, ih h]

/-- Looking up a freshly inserted key yields the inserted value. -/
theorem AssocMap.lookup_insert {α : Type} (m : AssocMap α) (k : String)
    (v : α) : (m.insert k v).lookup k = some v := by
  induction m with
  | nil => simp [AssocMap.insert, AssocMap.lookup]
  | cons p rest ih =>
    by_cases hk : p.1 = k
    · simp [AssocMap.insert, hk, AssocMap.lookup]
    · simp [AssocMap.insert, hk, AssocMap.lookup, ih]

/-! ## Claim C1 -/

/-- C1: refuted on the code — `verify_chain` recomputes the record hash
from a four-field material (`index prev_hash payload_hash signers`),
omitting the `timestamp` and `nonce` that `Record::new` hashed, so the
recomputed hash never equals the stored one and `verify_chain` fails with
"Record hash mismatch at 0" already on the freshly created ledger (here
with genesis entropy fixed to zeros), before any `register_user` or
`add_record` call. -/
theorem c1_verify_chain_fails_on_fresh_ledger :
    (Ledger.new 0 0 0).verifyChain =
      .error (.ChainValidation "Record hash mismatch at 0") := by decide

/-! ## Claim C2 -/

/-- C2: refuted on the code — `DatabaseWriter::write_ledger` fails on
every ledger.  The body checksum is the 64-character hex digest, whose 64
ASCII bytes are fed to `<[u8; 32]>::try_from`; a slice-to-array conversion
rejects any length other than 32, so the writer always returns
`Serialization("Checksum conversion failed")` and never stores any
checksum, raw or otherwise. -/
theorem c2_write_ledger_always_fails (ledger : Ledger) (now : Nat) :
    writeLedger ledger now =
      .error (.Serialization "Checksum conversion failed") := by
  have h : ∀ bs : List Nat,
      tryInto32 (Sha256.strBytes (Sha256.digestBytes bs)) = .error () := by
    intro bs
    simp [tryInto32, Sha256.strBytes_digestBytes_length]
  simp [writeLedger, h]

/-! ## Claim C5 -/

/-- C5: refuted on the code — `add_record` never checks for an empty
signers list (the `NoSigners` variant exists in `error.rs` but is never
returned): on a fresh ledger, an empty signers list with a non-empty
payload is accepted and the record is appended at index 1. -/
theorem c5_empty_signers_accepted :
    ((Ledger.new 0 0 0).addRecord "x" [] 1 1).map Prod.snd = .ok 1 := by
  decide

/-! ## Claim C6 -/

/-- C6 counterexample: re-registering id `"a"` (registered with key
handle 1) under a different verifying key is not rejected — the ledger is
returned with both maps silently overwritten to the new user and key. -/
theorem c6_counterexample_overwrite :
    AssocMap.lookup (c6Ledger.registerUser c6UserK2).verify_registry "a" =
      some 2 ∧
    AssocMap.lookup (c6Ledger.registerUser c6UserK2).users "a" =
      some c6UserK2 := by decide

/-- C6 (amended): `register_user` never rejects: it always succeeds,
binding the id to the given user and verifying key in both maps
(overwriting any previous binding, even one with a different key); and
re-registering an identical already-registered user leaves the ledger
unchanged. -/
theorem c6_register_user_semantics (l : Ledger) (u : User) :
    (AssocMap.lookup (l.registerUser u).users u.user_id = some u ∧
     AssocMap.lookup (l.registerUser u).verify_registry u.user_id =
       some u.verifying_key) ∧
    (AssocMap.lookup l.users u.user_id = some u →
      AssocMap.lookup l.verify_registry u.user_id = some u.verifying_key →
      l.registerUser u = l) := by
  constructor
  · exact ⟨AssocMap.lookup_insert _ _ _, AssocMap.lookup_insert _ _ _⟩
  · intro h1 h2
    simp [Ledger.registerUser, AssocMap.insert_lookup_self _ _ _ h1,
      AssocMap.insert_lookup_self _ _ _ h2]

/-- C6 witness: re-registering the identical user is a no-op on a
concrete ledger. -/
theorem c6_register_user_semantics_witness :
    c6Ledger.registerUser c6UserK1 = c6Ledger :=
  (c6_register_user_semantics c6Ledger c6UserK1).2 (by decide) (by decide)

/-! ## Claim C7 -/

/-- C7 counterexample: a WAL whose only entry has a complete, well-formed
49-byte header (magic `APND`, `data_size = 5`) followed by just 2 payload
bytes makes `read_all_entries` return an `Io` (`UnexpectedEof`) error —
the payload read uses `?`, not the clean-stop match arm — instead of
stopping cleanly with the entries read so far. -/
theorem c7_counterexample_payload_eof :
    readAllEntries c7File = .error (.Io .unexpectedEof) := by decide

/-- C7 (amended): the `read_all_entries` loop stops cleanly with the
entries read so far when fewer than 49 bytes remain for the fixed header,
and when a complete header's magic differs from `APND`; but end-of-file
inside the `data_size` payload bytes after a complete `APND` header is
returned as an `Io` (`UnexpectedEof`) error, discarding nothing
cleanly. -/
theorem c7_read_all_entries_semantics (fuel : Nat) (bytes : List Nat)
    (acc : List (AppendEntry × List Nat)) :
    (bytes.length < ENTRY_HEADER_SIZE →
      readAllEntriesAux (fuel + 1) bytes acc = .ok acc.reverse) ∧
    (∀ entry, ¬ bytes.length < ENTRY_HEADER_SIZE →
      AppendEntry.fromBytes (bytes.take ENTRY_HEADER_SIZE) = .ok entry →
      entry.magic ≠ APPEND_MAGIC →
      readAllEntriesAux (fuel + 1) bytes acc = .ok acc.reverse) ∧
    (∀ entry, ¬ bytes.length < ENTRY_HEADER_SIZE →
      AppendEntry.fromBytes (bytes.take ENTRY_HEADER_SIZE) = .ok entry →
      entry.magic = APPEND_MAGIC →
      (bytes.drop ENTRY_HEADER_SIZE).length < entry.data_size →
      readAllEntriesAux (fuel + 1) bytes acc = .error (.Io .unexpectedEof)) := by
  refine ⟨fun h => ?_, fun entry h hfb hm => ?_, fun entry h hfb hm hlen => ?_⟩
  · simp [readAllEntriesAux, h]
  · simp [readAllEntriesAux, h, hfb, hm]
  · rw [List.length_drop] at hlen
    simp [readAllEntriesAux, h, hfb, hm]
    intro hle
    omega

/-- C7 witness: a 1-byte file stops cleanly with no entries. -/
theorem c7_read_all_entries_semantics_witness :
    readAllEntriesAux 1 [0] [] = .ok [] :=
  (c7_read_all_entries_semantics 0 [0] []).1 (by decide)

/-! ## Claim C3 -/

set_option maxRecDepth 100000 in
/-- C3 counterexample: when the snapshot read fails with
`ChecksumMismatch`, `recover_ledger` falls back to `recover_from_wal`,
which replays the WAL and returns `Ok` WITHOUT re-verifying the chain:
on this concrete WAL (one well-formed type-1 entry whose record has a
non-genesis `prev_hash` at index 0) recovery succeeds although
`verify_chain` on the returned ledger fails — so the chain failure is
not surfaced as `ValidationFailed`. -/
theorem c3_counterexample_fallback_unverified :
    (recoverLedger ⟨0, 0, 0⟩ 0 0 (.error .ChecksumMismatch)
        (some c3Wal) 0).toOption.map Ledger.verifyChain =
      some (.error (.ChainValidation "Invalid genesis")) := by decide

/-- C3 (amended): `recover_ledger` re-verifies the chain only on the
snapshot-success path, where a chain failure surfaces as
`ValidationFailed` carrying the `ChainValidation` message and a returned
ledger has passed `verify_chain`; the `ChecksumMismatch` fallback path
returns the WAL-replayed ledger without re-verifying the chain. -/
theorem c3_success_path_verifies (gc : GenCtx) (s s' now : Nat)
    (h : DatabaseHeader) (body : DatabaseBody) (L : Ledger)
    (hrec : reconstructFromBody gc s body = .ok L) :
    (∀ msg, L.verifyChain = .error (.ChainValidation msg) →
      recoverLedger gc s s' (.ok (h, body)) none now =
        .error (.ValidationFailed msg)) ∧
    (L.verifyChain = .ok true →
      recoverLedger gc s s' (.ok (h, body)) none now = .ok L) := by
  constructor
  · intro msg hv
    simp [recoverLedger, hrec, hv, mapChainError, exceptBind_ok]
  · intro hv
    simp [recoverLedger, hrec, hv, exceptBind_ok]

/-- C3 witness: recovering from an empty snapshot body (no WAL) succeeds
and the returned ledger passes `verify_chain` vacuously. -/
theorem c3_success_path_verifies_witness :
    recoverLedger ⟨0, 0, 0⟩ 0 0
        (.ok (DatabaseHeader.new 0 0 0 0, ⟨[], []⟩)) none 0 =
      .ok emptyLedger :=
  (c3_success_path_verifies ⟨0, 0, 0⟩ 0 0 0 (DatabaseHeader.new 0 0 0 0)
      ⟨[], []⟩ emptyLedger (by decide)).2 (by decide)

/-! ## Claim C4 -/

/-- C4 counterexample: a type-1 WAL entry whose record is signed by the
known user `"a"` and the unknown user `"b"` is NOT skipped: it is
appended with the unknown signer silently dropped from the signers list
(so the claim's "skip when any signer is unknown" fails, and the
appended record is not signer-wise "as-is" either). -/
theorem c4_counterexample_mixed_signers :
    replayWal 0 c4Ledger [(c4Entry, c4Data)] =
      .ok { c4Ledger with records :=
        [{ index := 0, payload := "p", payload_hash := "h",
           signers := [c4UserA], signatures := [("a", List.replicate 64 1)],
           prev_hash := "q", record_hash := "r",
           timestamp := 2, nonce := 3 }] } := by decide

/-- C4 (amended): during WAL replay a type-1 entry is skipped when NONE
of its signers is known at replay time (unknown signers are dropped from
the signers list, not grounds for skipping), and skipped when a record
with the same index already exists; otherwise the record is appended
preserving its original index, payload, hashes, timestamp, nonce and its
parseable (64-byte) signatures, with signers resolved to the known
users. -/
theorem c4_replay_record_semantics (seed : Nat) (l : Ledger)
    (entry : AppendEntry) (data : List Nat) (sr : SerializableRecord)
    (htype : entry.entry_type = 1) (hdec : rkyvDecodeRecord data = .ok sr) :
    ((sr.signer_ids.filterMap fun user_id =>
        AssocMap.lookup l.users user_id) = [] →
      replayWal seed l [(entry, data)] = .ok l) ∧
    ((sr.signer_ids.filterMap fun user_id =>
        AssocMap.lookup l.users user_id) ≠ [] →
      (l.records.any fun r => r.index = sr.index) = true →
      replayWal seed l [(entry, data)] = .ok l) ∧
    ((sr.signer_ids.filterMap fun user_id =>
        AssocMap.lookup l.users user_id) ≠ [] →
      (l.records.any fun r => r.index = sr.index) = false →
      replayWal seed l [(entry, data)] =
        .ok { l with records := l.records ++
          [{ index := sr.index, payload := sr.payload,
             payload_hash := sr.payload_hash,
             signers := sr.signer_ids.filterMap fun user_id =>
               AssocMap.lookup l.users user_id,
             signatures := rebuildSignatures sr.signatures,
             prev_hash := sr.prev_hash, record_hash := sr.record_hash,
             timestamp := sr.timestamp, nonce := sr.nonce }] }) := by
  refine ⟨fun hs => ?_, fun hs hd => ?_, fun hs hd => ?_⟩
  · simp [replayWal, htype, hdec, List.isEmpty_iff, hs]
  · simp [replayWal, htype, hdec, List.isEmpty_iff, hs, hd]
  · simp [replayWal, htype, hdec, List.isEmpty_iff, hs, hd]

/-- C4 witness: an entry none of whose signers is known is skipped —
the ledger comes back unchanged. -/
theorem c4_replay_record_semantics_witness :
    replayWal 0 emptyLedger [(c4Entry, c4Data)] = .ok emptyLedger :=
  (c4_replay_record_semantics 0 emptyLedger c4Entry c4Data c4SerRecord
      (by decide) (by decide)).1 (by decide)

/-! ## Claim C10 -/

/-- C10: during WAL replay of a type-1 entry, a stored signature whose
byte string is not exactly 64 bytes is silently left out of the rebuilt
signatures map while the record is still appended (here with its known
signer and fresh index); the same record inside a snapshot body makes
`reconstruct_from_body` fail with
`Deserialization("Invalid signatures for record 1")`, because the rebuilt
map is smaller than the stored signature list. -/
theorem c10_malformed_signature_paths (bad data : List Nat) (seed : Nat)
    (gc : GenCtx) (entry : AppendEntry)
    (h64 : bad.length ≠ 64) (htype : entry.entry_type = 1)
    (hdec : rkyvDecodeRecord data = .ok (c10SerRecord bad)) :
    replayWal seed c10Ledger [(entry, data)] =
      .ok { c10Ledger with records :=
        [{ index := 1, payload := "p", payload_hash := "h",
           signers := [c10User], signatures := [],
           prev_hash := "q", record_hash := "r",
           timestamp := 2, nonce := 3 }] } ∧
    reconstructFromBody gc seed (c10Body bad) =
      .error (.Deserialization "Invalid signatures for record 1") := by
  constructor
  · simp [replayWal, htype, hdec, c10SerRecord, c10Ledger, AssocMap.lookup,
      rebuildSignatures, tryParseSignature, h64, List.isEmpty_iff]
  · simp [reconstructFromBody, c10Body, c10SerUser, c10SerRecord,
      loadBodyUsers, vkFromBytes, vkToBytes, leBytes_length, loadBodyRecords,
      AssocMap.lookup, AssocMap.insert, rebuildSignatures, tryParseSignature,
      h64, exceptBind_ok, exceptBind_error]
    rfl

/-- C10 witness: the two behaviours at a concrete 63-byte signature. -/
theorem c10_malformed_signature_paths_witness :
    replayWal 0 c10Ledger [(AppendEntry.new 1 0 [] 0,
        rkyvEncodeRecord (c10SerRecord (List.replicate 63 0)))] =
      .ok { c10Ledger with records :=
        [{ index := 1, payload := "p", payload_hash := "h",
           signers := [c10User], signatures := [],
           prev_hash := "q", record_hash := "r",
           timestamp := 2, nonce := 3 }] } ∧
    reconstructFromBody ⟨0, 0, 0⟩ 0 (c10Body (List.replicate 63 0)) =
      .error (.Deserialization "Invalid signatures for record 1") :=
  c10_malformed_signature_paths (List.replicate 63 0) _ 0 ⟨0, 0, 0⟩ _
    (by decide) (by decide) (by decide)

/-! ## Claim C8 -/

/-- C8: confirmed — for a loaded workflow, `validate_transition` fails
with the no-transition `Validation` error when no transition matches the
`(from, to)` pair; when the first matching transition is `t`, it returns
`Ok(true)` precisely when every role in `t.required_roles` appears in the
union of the signers' roles, and otherwise fails with the `Validation`
error listing the missing roles. -/
theorem c8_validate_transition_correct (e : Engine)
    (wid fs ts payload : String) (wf : Workflow) (signers : List User)
    (hwf : AssocMap.lookup e.workflows wid = some wf) :
    (wf.transitions.find?
        (fun t => t.from_state == fs && t.to_state == ts) = none →
      e.validateTransition wid fs ts signers payload =
        .error (.Validation ("No valid transition from " ++ fs ++ " to " ++ ts))) ∧
    (∀ t, wf.transitions.find?
        (fun t => t.from_state == fs && t.to_state == ts) = some t →
      (e.validateTransition wid fs ts signers payload = .ok true ↔
        ∀ r ∈ t.required_roles, r ∈ signers.flatMap (·.roles)) ∧
      ((t.required_roles.filter
          fun r => !(signers.flatMap (·.roles)).contains r) ≠ [] →
        e.validateTransition wid fs ts signers payload =
          .error (.Validation ("Missing required roles: " ++
            rustDebugStrList (t.required_roles.filter
              fun r => !(signers.flatMap (·.roles)).contains r))))) := by
  have hiff : ∀ t : Transition,
      ((t.required_roles.filter
        fun r => !(signers.flatMap (·.roles)).contains r) = []) ↔
      (∀ r ∈ t.required_roles, r ∈ signers.flatMap (·.roles)) := by
    intro t
    rw [List.filter_eq_nil_iff]
    constructor
    · intro h r hr
      simpa [List.contains, List.elem_iff] using h r hr
    · intro h r hr
      simp [List.contains, List.elem_iff, h r hr]
  refine ⟨fun hnone => ?_, fun t hfind => ⟨?_, fun hne => ?_⟩⟩
  · simp [Engine.validateTransition, hwf, hnone]
  · by_cases hE : (t.required_roles.filter
        fun r => !(signers.flatMap (·.roles)).contains r) = []
    · have hv : e.validateTransition wid fs ts signers payload = .ok true := by
        simp only [Engine.validateTransition, hwf, hfind]
        rw [hE]
        simp
      exact iff_of_true hv ((hiff t).mp hE)
    · have hcond : (t.required_roles.filter
          fun r => !(signers.flatMap (·.roles)).contains r).isEmpty = false := by
        cases hc : (t.required_roles.filter
            fun r => !(signers.flatMap (·.roles)).contains r).isEmpty
        · rfl
        · exact absurd (List.isEmpty_iff.mp hc) hE
      have hv : e.validateTransition wid fs ts signers payload =
          .error (.Validation ("Missing required roles: " ++
            rustDebugStrList (t.required_roles.filter
              fun r => !(signers.flatMap (·.roles)).contains r))) := by
        simp only [Engine.validateTransition, hwf, hfind]
        rw [hcond]
        simp
      refine iff_of_false (by simp [hv]) fun hc => hE ((hiff t).mpr hc)
  · have hcond : (t.required_roles.filter
        fun r => !(signers.flatMap (·.roles)).contains r).isEmpty = false := by
      cases hc : (t.required_roles.filter
          fun r => !(signers.flatMap (·.roles)).contains r).isEmpty
      · rfl
      · exact absurd (List.isEmpty_iff.mp hc) hne
    simp only [Engine.validateTransition, hwf, hfind]
    rw [hcond]
    simp

/-- C8 witness: the spec's S6 scenarios — `review → published` with a
single `admin` signer reports the missing `editor` role; with `admin`
and `editor` signers together it validates. -/
theorem c8_validate_transition_correct_witness :
    c8Engine.validateTransition "wf" "review" "published" [c8Admin] "pl" =
      .error (.Validation ("Missing required roles: " ++
        rustDebugStrList ["editor"])) ∧
    c8Engine.validateTransition "wf" "review" "published"
      [c8Admin, c8Editor] "pl" = .ok true := by
  constructor
  · exact ((c8_validate_transition_correct c8Engine "wf" "review" "published"
      "pl" c8Workflow [c8Admin] (by decide)).2
        { from_state := "review", to_state := "published", name := "Publish",
          required_roles := ["admin", "editor"] } (by decide)).2 (by decide)
  · exact ((c8_validate_transition_correct c8Engine "wf" "review" "published"
      "pl" c8Workflow [c8Admin, c8Editor] (by decide)).2
        { from_state := "review", to_state := "published", name := "Publish",
          required_roles := ["admin", "editor"] } (by decide)).1.mpr (by decide)

/-! ## Claim C9 -/

/-- C9: confirmed — `load_workflow_from_json` inserts any successfully
parsed workflow into the catalog with none of `load_workflow`'s
validation: the inserted workflow (even with an empty states list, or an
initial state naming no defined state) is retrievable and queryable via
`get_valid_transitions`, while `load_workflow` rejects the same
definition with the corresponding `Definition` error. -/
theorem c9_from_json_skips_validation (e : Engine) (w : Workflow)
    (s : String) :
    (e.loadWorkflowFromJson (.ok w) =
      .ok ({ workflows := AssocMap.insert e.workflows w.id w }, w)) ∧
    (AssocMap.lookup (AssocMap.insert e.workflows w.id w) w.id = some w) ∧
    (Engine.getValidTransitions
        { workflows := AssocMap.insert e.workflows w.id w } w.id s =
      .ok (w.transitions.filter fun t => t.from_state == s)) ∧
    (w.states = [] →
      e.loadWorkflow (.ok w) =
        .error (.Definition "Workflow must have at least one state")) ∧
    (w.states ≠ [] → ¬ (w.states.map (·.id)).contains w.initial_state →
      e.loadWorkflow (.ok w) =
        .error (.Definition ("Start state '" ++ w.initial_state ++
          "' not found in workflow states"))) := by
  refine ⟨?_, ?_, ?_, fun h => ?_, fun h1 h2 => ?_⟩
  · simp [Engine.loadWorkflowFromJson]
  · exact AssocMap.lookup_insert _ _ _
  · simp [Engine.getValidTransitions, AssocMap.lookup_insert]
  · simp [Engine.loadWorkflow, h]
  · simp only [Bool.not_eq_true] at h2
    have h1' : w.states.isEmpty = false := by
      cases hc : w.states.isEmpty
      · rfl
      · exact absurd (List.isEmpty_iff.mp hc) h1
    simp only [Engine.loadWorkflow]
    rw [h1', h2]
    simp

/-- C9 witness: a workflow with an empty states list is accepted into the
catalog by `load_workflow_from_json` and queryable, while `load_workflow`
rejects it. -/
theorem c9_from_json_skips_validation_witness :
    (Engine.new.loadWorkflowFromJson (.ok c9Workflow) =
      .ok ({ workflows := [("bad", c9Workflow)] }, c9Workflow)) ∧
    (Engine.getValidTransitions { workflows := [("bad", c9Workflow)] }
        "bad" "a" =
      .ok [{ from_state := "a", to_state := "b", name := "t",
             required_roles := [] }]) ∧
    (Engine.new.loadWorkflow (.ok c9Workflow) =
      .error (.Definition "Workflow must have at least one state")) := by
  refine ⟨?_, ?_, ?_⟩
  · exact (c9_from_json_skips_validation Engine.new c9Workflow "a").1
  · exact (c9_from_json_skips_validation Engine.new c9Workflow "a").2.2.1
  · exact (c9_from_json_skips_validation Engine.new c9Workflow "a").2.2.2.1
      (by decide)

end Ukweli
